import Mathlib

/-!
Shallow embedding of `simpy_simulation.py`, a discrete-event model of a
ring-oscillator TRNG, and proofs about its components.

Conventions of the embedding:
* Python ints become `Nat`/`Int`, Python floats become `ℚ` (exact values are
  irrelevant to the claims; only the arithmetic structure matters), except
  for the `sigma` statistic where `ℝ` is needed for the square root.
* Each component's `run` loop is embedded as a per-iteration step function on
  an explicit state record; a whole run is a fold of the step function over
  the list of received messages.  Live cross-component attribute reads
  (e.g. `self.i_rst.state`) become explicit parameters carrying the value the
  attribute has at that instant; this is sound because the simulation is
  single-threaded and cooperative, so nothing can mutate state mid-iteration.
* `simpy` mailboxes (`simpy.Store`, unbounded here) are FIFO queues: `put`
  appends at the tail; a consumer's pending queue is a `List`.
* `simpy.Environment.timeout` rejects a negative delay (it raises
  `ValueError`); the spec calls that condition `InvalidDelay`.  The
  `RuntimeError` raised by `BroadcastPipe.put` with no registered pipes is
  the spec's `NoConsumersError`.  Both are constructors of `SimError`, and
  fallible operations return `Except SimError _`.
* Gaussian jitter draws (`normalvariate(0, jitter * sqrt 2 / 2)`) are
  exogenous randomness: each draw is passed in as an explicit `ℚ` argument.
* The optional `verbose` time-series recording (`self.data`) is modelled only
  where a claim depends on it (the sampler `RandOut`); for the other
  components it is pure additional logging that no claim mentions.
-/

/-- Error kinds of the simulation, with the specification's names.
`InvalidDelay` is the `ValueError` that `simpy.Environment.timeout` raises
for a negative delay; `NoConsumersError` is the `RuntimeError` that
`BroadcastPipe.put` raises when no output pipe is registered. -/
inductive SimError
  | InvalidDelay
  | NoConsumersError
  deriving DecidableEq

/-- Embedding of `simpy.Environment.timeout`: a nonnegative delay succeeds and
takes effect as is, a negative delay fails with `InvalidDelay` (simpy raises
`ValueError("Negative delay ...")`; no clamping takes place). -/
def timeout (delay : ℚ) : Except SimError ℚ :=
  if delay < 0 then Except.error SimError.InvalidDelay else Except.ok delay

/-- Embedding of `BroadcastPipe`: the state is the list of registered output
Stores (`self.pipes`), each a FIFO queue of not-yet-consumed values. -/
structure BroadcastPipe (α : Type) where
  pipes : List (List α)
  deriving DecidableEq

/-- Embedding of `BroadcastPipe.put`: with no registered output pipes it
raises (`RuntimeError`, the spec's `NoConsumersError`); otherwise it performs
a `Store.put` on every registered pipe, which for these unbounded Stores
enqueues the value at the tail immediately. -/
def BroadcastPipe.put {α : Type} (p : BroadcastPipe α) (value : α) :
    Except SimError (BroadcastPipe α) :=
  if p.pipes.isEmpty then Except.error SimError.NoConsumersError
  else Except.ok ⟨p.pipes.map (fun store => store ++ [value])⟩

/-- Embedding of `BroadcastPipe.get_output_conn`: creates a fresh empty Store,
appends it to `self.pipes` and returns it; the returned handle is the index of
the new Store in the pipe list. -/
def BroadcastPipe.get_output_conn {α : Type} (p : BroadcastPipe α) :
    Nat × BroadcastPipe α :=
  (p.pipes.length, ⟨p.pipes ++ [[]]⟩)

/-- A sequence of `put` calls on the same pipe, stopping at the first error. -/
def BroadcastPipe.putList {α : Type} (p : BroadcastPipe α) :
    List α → Except SimError (BroadcastPipe α)
  | [] => Except.ok p
  | v :: vs =>
    match p.put v with
    | Except.error e => Except.error e
    | Except.ok q => q.putList vs

/-- Embedding of the body of `RO.run`'s `while True` loop, iterated over a
list of jitter draws `gs` (one `normalvariate` result per half-period).
Starting from simulated time `t` and oscillator state `state`, each iteration
waits `half_period + g` via `timeout` and then flips the state; the returned
list holds the resulting `(flip time, new state)` events in order (when an
output pipe is configured, each new state is also `put` to it at that time). -/
def RO.runEvents (half_period : ℚ) :
    ℚ → Bool → List ℚ → Except SimError (List (ℚ × Bool))
  | _, _, [] => Except.ok []
  | t, state, g :: gs =>
    match timeout (half_period + g) with
    | Except.error e => Except.error e
    | Except.ok d =>
      match RO.runEvents half_period (t + d) (!state) gs with
      | Except.error e => Except.error e
      | Except.ok evs => Except.ok ((t + d, !state) :: evs)

/-- Embedding of `RO.run` from time 0: when an output pipe is configured
(`if self.out_pipe:` — a pipe object is truthy, `None` is falsy) the process
first waits `period / 4`, then enters the toggle loop; without a pipe it
enters the loop immediately.  `state` is the oscillator's initial state
(`True` at construction), `gs` the successive jitter draws. -/
def RO.run (period : ℚ) (out_pipe : Bool) (state : Bool) (gs : List ℚ) :
    Except SimError (List (ℚ × Bool)) :=
  match (if out_pipe then timeout (period / 4) else Except.ok 0) with
  | Except.error e => Except.error e
  | Except.ok t0 => RO.runEvents (period / 2) t0 state gs

/-- State of the latch `FF`: its `state` and `old_state` booleans, plus the
sequence of values it has `put` on its output broadcast pipe `o_beat_pipe`
(in the assembly that pipe has a registered consumer, so `put` succeeds and
enqueues). -/
structure FFState where
  state : Bool
  old_state : Bool
  o_beat : List Bool
  deriving DecidableEq

/-- Embedding of one iteration of `FF.run`: receive `clk` from the clock
pipe; if it is truthy, save `state` into `old_state`, sample the data
source's live `state` (passed here as `i_data_state`), and broadcast the new
`state`; otherwise do nothing. -/
def FF.run1 (s : FFState) (clk : Bool) (i_data_state : Bool) : FFState :=
  if clk then
    { state := i_data_state, old_state := s.state,
      o_beat := s.o_beat ++ [i_data_state] }
  else s

/-- State of the `Counter`: `count`, running average `avg` with its sample
index `n`, the `count_max` list of counts recorded at reset events, and the
`old_state` flag holding the reset gate's previously observed state. -/
structure CounterState where
  count : Nat
  avg : ℚ
  n : Nat
  count_max : List Nat
  old_state : Bool
  deriving DecidableEq

/-- Observable actions one iteration of `Counter.run` performs, in order:
the `1e-15` settling timeout, the `put` of the pre-increment count on
`o_Q_pipe`, and the read of the reset gate's live `state`. -/
inductive CAction
  | wait (d : ℚ)
  | publish (v : Nat)
  | readRst (b : Bool)
  deriving DecidableEq

/-- Embedding of one iteration of `Counter.run`: receive `clk`; if truthy,
wait `1e-15`, publish the pre-increment `count` on `o_Q_pipe`, then read the
reset gate's live `state` (passed here as `rst`).  On a rising edge of the
gate (`rst` true, `old_state` false) update the running average
incrementally, record `count` in `count_max` and reset it to 0; otherwise
increment `count`.  Either way set `old_state` to the observed gate state.
If `clk` is falsy, the iteration does nothing at all.  Returns the new state
and the ordered list of actions performed. -/
def Counter.run1 (s : CounterState) (clk : Bool) (rst : Bool) :
    CounterState × List CAction :=
  if clk then
    (if rst && !s.old_state then
      { count := 0,
        avg := s.avg + ((s.count : ℚ) - s.avg) / (s.n : ℚ),
        n := s.n + 1,
        count_max := s.count_max ++ [s.count],
        old_state := rst }
     else
      { s with count := s.count + 1, old_state := rst },
     [CAction.wait (1 / 1000000000000000), CAction.publish s.count,
      CAction.readRst rst])
  else (s, [])

/-- The state transition of one `Counter.run` iteration. -/
def Counter.step (s : CounterState) (clk : Bool) (rst : Bool) : CounterState :=
  (Counter.run1 s clk rst).1

/-- A whole `Counter.run` execution over a list of iterations, each carrying
the received clock value and the reset gate's state at observation time. -/
def Counter.runList (s : CounterState) (ins : List (Bool × Bool)) :
    CounterState :=
  ins.foldl (fun s i => Counter.step s i.1 i.2) s

/-- The `Counter`'s construction-time state (`count = 0`, `avg = 0`, `n = 1`,
no recorded resets, `old_state = False`). -/
def Counter.init : CounterState :=
  { count := 0, avg := 0, n := 1, count_max := [], old_state := false }

/-- Embedding of the `Counter.state` property: `self.count % 2`. -/
def CounterState.state (s : CounterState) : Nat := s.count % 2

/-- Specification-side description of the reset records, written from the
spec's words: walk the trace of (clock value, reset-gate state) messages,
tracking in `trues` the number of true-valued clock messages received since
the previous reset event, and at each reset event (a true clock message whose
observed gate state is true while the previously observed gate state was
false) emit that number and start over.  The reset-triggering messages
themselves are the sampling instants that delimit the segments and are
counted in neither segment. -/
def specResetCounts (oldGate : Bool) (trues : Nat) :
    List (Bool × Bool) → List Nat
  | [] => []
  | (clk, rst) :: rest =>
    if clk then
      if rst && !oldGate then trues :: specResetCounts rst 0 rest
      else specResetCounts rst (trues + 1) rest
    else specResetCounts oldGate trues rest

/-- A recorded sample of the `RandOut` sampler: a bare value (non-verbose
mode) or a `(time, value)` pair (verbose mode). -/
inductive Sample
  | bare (v : Nat)
  | stamped (t : ℚ) (v : Nat)
  deriving DecidableEq

/-- State of the `RandOut` sampler: its recorded `data` sequence and the
previously received gated-clock value `old_i_clk`. -/
structure RandOutState where
  data : List Sample
  old_i_clk : Bool
  verbose : Bool
  deriving DecidableEq

/-- Embedding of one iteration of `RandOut.run`: receive `i_clk` from the
gated clock pipe; on a rising edge (`i_clk` true and `old_i_clk` false)
record the monitored source's live `state` property — in the assembly the
`Counter`, so `i_Q.state = count % 2` — with the current time in verbose
mode and bare otherwise; finally remember `i_clk` in `old_i_clk`
(unconditionally, every iteration). -/
def RandOut.run1 (s : RandOutState) (now : ℚ) (i_Q : CounterState)
    (i_clk : Bool) : RandOutState :=
  if i_clk && !s.old_i_clk then
    { s with
      data := s.data ++
        [if s.verbose then Sample.stamped now i_Q.state
         else Sample.bare i_Q.state],
      old_i_clk := i_clk }
  else { s with old_i_clk := i_clk }

/-- Embedding of `np.mean` on a list of reals (`np.std` uses it): the sum
divided by the length. -/
noncomputable def np_mean (l : List ℝ) : ℝ := l.sum / (l.length : ℝ)

/-- Embedding of `np.std` on a list of reals: the population standard
deviation (`ddof = 0`), the square root of the mean of the squared deviations
from the mean. -/
noncomputable def np_std (l : List ℝ) : ℝ :=
  Real.sqrt (((l.map (fun x => (x - np_mean l) ^ 2)).sum) / (l.length : ℝ))

/-- Embedding of the `TRNG.sigma` property:
`np.std(self.counter.count_max[1:]) * self.delta / np.sqrt(2 * self.period / self.delta)`,
as a function of the period, the delta and the counter's accumulated
`count_max` values (as reals). -/
noncomputable def TRNG.sigma (period delta : ℝ) (count_max : List ℝ) : ℝ :=
  np_std (count_max.drop 1) * delta / Real.sqrt (2 * period / delta)

/-- C2: for every TRNG with accumulated counter reset records, the derived
statistic `sigma` equals the standard deviation of the `count_at_reset`
sequence (`count_max` in the code) with its first entry excluded, multiplied
by `delta` and divided by the square root of `2 * period / delta`. -/
theorem C2_sigma_formula (period delta : ℝ) (count_max : List ℝ) :
    TRNG.sigma period delta count_max =
      Real.sqrt
          ((((count_max.drop 1).map
                (fun x =>
                  (x - (count_max.drop 1).sum / ((count_max.drop 1).length : ℝ)) ^ 2)).sum) /
            ((count_max.drop 1).length : ℝ)) *
        delta / Real.sqrt (2 * period / delta) := rfl

/-- C5: on a received true value the latch copies its current `state` into
`old_state`, sets `state` to the live current state of its data source, and
broadcasts the new `state`; a received false value is consumed with no
action, leaving `state` and `old_state` unchanged and broadcasting
nothing. -/
theorem C5_latch_behavior (s : FFState) (d : Bool) :
    (FF.run1 s true d).old_state = s.state ∧
    (FF.run1 s true d).state = d ∧
    (FF.run1 s true d).o_beat = s.o_beat ++ [(FF.run1 s true d).state] ∧
    FF.run1 s false d = s :=
  ⟨rfl, rfl, rfl, rfl⟩

/-- C6: calling `put` on a `BroadcastPipe` with zero registered consumer
mailboxes fails with `NoConsumersError`, propagated to the caller as the
operation's result rather than swallowed. -/
theorem C6_put_no_consumers {α : Type} (p : BroadcastPipe α) (v : α)
    (h : p.pipes = []) :
    p.put v = Except.error SimError.NoConsumersError := by
  simp [BroadcastPipe.put, h]

/-- Witness for C6 at a concrete empty pipe. -/
theorem C6_put_no_consumers_witness :
    ({ pipes := [] } : BroadcastPipe Nat).pipes = [] ∧
    ({ pipes := [] } : BroadcastPipe Nat).put 0 =
      Except.error SimError.NoConsumersError :=
  ⟨rfl, C6_put_no_consumers _ 0 rfl⟩

/-- C8 as stated is false: on an iteration whose received clock value is
false, the counter skips the whole body, so `old_state` is not updated and
does not equal the reset gate's state during that iteration.  Concretely,
from the initial state (`old_state = False`), receiving a false clock value
while the gate is high leaves `old_state = False ≠ True`. -/
theorem C8_false_clock_counterexample :
    ¬ ((Counter.step Counter.init false true).old_state = true) := by decide

/-- C8 amended: after every iteration whose received clock value was true —
regardless of which branch (reset or increment) was taken — `old_state`
equals the reset gate's state observed during that iteration; an iteration
receiving false leaves the whole counter state (in particular `old_state`)
unchanged and observes nothing. -/
theorem C8_old_state_tracks_gate (s : CounterState) (rst : Bool) :
    (Counter.step s true rst).old_state = rst ∧
    Counter.step s false rst = s := by
  refine ⟨?_, rfl⟩
  cases hb : (rst && !s.old_state) <;> simp [Counter.step, Counter.run1, hb]

/-- C4: on every received true-valued clock message the counter first waits
the infinitesimal `1e-15` delay, then publishes the pre-increment `count` to
its output mailbox, then reads the reset gate's current state; if that state
is true and the previously observed state was false it updates the running
mean by `mean += (count - mean) / n`, increments `n`, appends `count` to
`count_at_reset` (`count_max`) and resets `count` to 0; otherwise it
increments `count` by 1. -/
theorem C4_counter_true_iteration (s : CounterState) (rst : Bool) :
    (Counter.run1 s true rst).2 =
      [CAction.wait (1 / 1000000000000000), CAction.publish s.count,
       CAction.readRst rst] ∧
    (rst = true → s.old_state = false →
      (Counter.run1 s true rst).1 =
        { count := 0,
          avg := s.avg + ((s.count : ℚ) - s.avg) / (s.n : ℚ),
          n := s.n + 1,
          count_max := s.count_max ++ [s.count],
          old_state := true }) ∧
    (¬ (rst = true ∧ s.old_state = false) →
      (Counter.run1 s true rst).1 =
        { s with count := s.count + 1, old_state := rst }) := by
  refine ⟨rfl, ?_, ?_⟩
  · intro h1 h2
    simp [Counter.run1, h1, h2]
  · intro h
    have hb : (rst && !s.old_state) = false := by
      cases rst <;> cases hs : s.old_state <;> simp_all
    simp [Counter.run1, hb]

/-- Witness for C4 at the counter's initial state with the gate high: the
reset branch fires and the published action list is as stated. -/
theorem C4_counter_true_iteration_witness :
    (Counter.run1 Counter.init true true).2 =
      [CAction.wait (1 / 1000000000000000),
       CAction.publish Counter.init.count,
       CAction.readRst true] ∧
    (Counter.run1 Counter.init true true).1 =
      { count := 0,
        avg := Counter.init.avg +
          ((Counter.init.count : ℚ) - Counter.init.avg) / (Counter.init.n : ℚ),
        n := Counter.init.n + 1,
        count_max := Counter.init.count_max ++ [Counter.init.count],
        old_state := true } :=
  ⟨(C4_counter_true_iteration Counter.init true).1,
   (C4_counter_true_iteration Counter.init true).2.1 rfl rfl⟩

/-- C1 as stated is false: on a rising edge of its gated clock the sampler
records the monitored counter's `state` property, which is `count % 2`, not
the full integer count.  Concretely, with the counter at `count = 2` the
recorded sample is `0`, so the output sequence is not `[2]`. -/
theorem C1_full_count_counterexample :
    (RandOut.run1 { data := [], old_i_clk := false, verbose := false } 0
        { count := 2, avg := 0, n := 1, count_max := [], old_state := false }
        true).data = [Sample.bare 0] ∧
    ¬ ((RandOut.run1 { data := [], old_i_clk := false, verbose := false } 0
        { count := 2, avg := 0, n := 1, count_max := [], old_state := false }
        true).data = [Sample.bare 2]) := by
  exact ⟨rfl, by decide⟩

/-- C1 amended: for every detected rising edge on the sampler's gated clock
input (received value true, previously received value false), the value
appended to its output sequence equals the counter's `state` property at
that moment, i.e. the instantaneous count reduced modulo 2 (its low-order
bit), timestamped in verbose mode and bare otherwise. -/
theorem C1_records_count_mod_two (s : RandOutState) (now : ℚ)
    (c : CounterState) (h : s.old_i_clk = false) :
    (RandOut.run1 s now c true).data =
      s.data ++
        [if s.verbose then Sample.stamped now (c.count % 2)
         else Sample.bare (c.count % 2)] := by
  simp [RandOut.run1, CounterState.state, h]

/-- Witness for C1's amended theorem at a concrete rising edge with
`count = 3`. -/
theorem C1_records_count_mod_two_witness :
    ({ data := [], old_i_clk := false, verbose := false } : RandOutState).old_i_clk = false ∧
    (RandOut.run1 { data := [], old_i_clk := false, verbose := false } 0
        { count := 3, avg := 0, n := 1, count_max := [], old_state := false }
        true).data =
      ([] : List Sample) ++
        [if ({ data := [], old_i_clk := false, verbose := false } : RandOutState).verbose then
            Sample.stamped 0 (3 % 2)
         else Sample.bare (3 % 2)] :=
  ⟨rfl,
   C1_records_count_mod_two { data := [], old_i_clk := false, verbose := false } 0
     { count := 3, avg := 0, n := 1, count_max := [], old_state := false } rfl⟩

/-- Helper for C3: along any `Counter.run` execution, the recorded
`count_max` sequence extends the starting one by exactly the reset counts of
the processed message trace, relative to the starting `old_state` flag and
the number of true messages already counted into `count`. -/
theorem counter_runList_count_max (ins : List (Bool × Bool)) :
    ∀ s : CounterState,
      (Counter.runList s ins).count_max =
        s.count_max ++ specResetCounts s.old_state s.count ins := by
  induction ins with
  | nil => intro s; simp [Counter.runList, specResetCounts]
  | cons i rest ih =>
    intro s
    obtain ⟨clk, rst⟩ := i
    show (Counter.runList (Counter.step s clk rst) rest).count_max = _
    rw [ih]
    cases clk with
    | false => simp [Counter.step, Counter.run1, specResetCounts]
    | true =>
      cases hb : (rst && !s.old_state) with
      | false => simp [Counter.step, Counter.run1, hb, specResetCounts]
      | true => simp [Counter.step, Counter.run1, hb, specResetCounts]

/-- C3: at every reset event of the counter, the value newly appended to
`count_at_reset` (`count_max`) equals the number of true-valued clock
messages received since the previous reset event (or since the start of the
run, for the first reset): starting from the construction-time state, the
whole recorded sequence equals `specResetCounts false 0` of the message
trace, whose entries are by definition those per-segment counts of
true-valued messages. -/
theorem C3_count_at_reset (ins : List (Bool × Bool)) :
    (Counter.runList Counter.init ins).count_max =
      specResetCounts false 0 ins := by
  simpa [Counter.init] using counter_runList_count_max ins Counter.init

/-- Helper for C7: a sequence of `put` calls on a pipe with at least one
registered consumer succeeds and appends the put values, in order, to the
tail of every registered mailbox. -/
theorem broadcast_putList_ok {α : Type} (vs : List α) :
    ∀ p : BroadcastPipe α, p.pipes ≠ [] →
      p.putList vs =
        Except.ok ⟨p.pipes.map (fun store => store ++ vs)⟩ := by
  induction vs with
  | nil =>
    intro p hp
    cases p
    simp [BroadcastPipe.putList]
  | cons v vs ih =>
    intro p hp
    have hemp : p.pipes.isEmpty = false := by
      cases h : p.pipes with
      | nil => exact absurd h hp
      | cons a l => rfl
    have hput : p.put v =
        Except.ok ⟨p.pipes.map (fun store => store ++ [v])⟩ := by
      simp [BroadcastPipe.put, hemp]
    have hne :
        (⟨p.pipes.map (fun store => store ++ [v])⟩ : BroadcastPipe α).pipes ≠ [] := by
      simpa using hp
    simp only [BroadcastPipe.putList, hput]
    rw [ih _ hne]
    simp [List.map_map, Function.comp]

/-- C7: on a pipe with `k ≥ 1` registered consumer mailboxes, a sequence of
`put` calls succeeds and delivers exactly one copy of each put value to every
one of the `k` registered mailboxes, preserving put order within each
mailbox (each mailbox is extended by exactly the put sequence); and a
consumer registered after the puts have fired receives none of those past
values (its fresh mailbox is empty). -/
theorem C7_broadcast_fanout {α : Type} (p : BroadcastPipe α) (vs : List α)
    (h : p.pipes ≠ []) :
    ∃ q : BroadcastPipe α,
      p.putList vs = Except.ok q ∧
      q.pipes.length = p.pipes.length ∧
      (∀ i : Nat, q.pipes[i]? =
        (p.pipes[i]?).map (fun store => store ++ vs)) ∧
      q.get_output_conn.2.pipes[q.get_output_conn.1]? = some [] := by
  refine ⟨⟨p.pipes.map (fun store => store ++ vs)⟩,
    broadcast_putList_ok vs p h, by simp, ?_, ?_⟩
  · intro i
    simp
  · simp only [BroadcastPipe.get_output_conn]
    exact List.getElem?_concat_length _ _

/-- Witness for C7 at a concrete pipe with one registered consumer and two
puts. -/
theorem C7_broadcast_fanout_witness :
    ({ pipes := [[0]] } : BroadcastPipe Nat).pipes ≠ [] ∧
    (∃ q : BroadcastPipe Nat,
      ({ pipes := [[0]] } : BroadcastPipe Nat).putList [1, 2] = Except.ok q ∧
      q.pipes.length = ({ pipes := [[0]] } : BroadcastPipe Nat).pipes.length ∧
      (∀ i : Nat, q.pipes[i]? =
        (({ pipes := [[0]] } : BroadcastPipe Nat).pipes[i]?).map
          (fun store => store ++ [1, 2])) ∧
      q.get_output_conn.2.pipes[q.get_output_conn.1]? = some []) :=
  ⟨by decide, C7_broadcast_fanout _ [1, 2] (by decide)⟩

/-- C9: whenever an oscillator's sampled wait duration `half_period + g` is
negative, the wait fails with `InvalidDelay` and the whole run aborts with
that error — no silent clamping — whether or not the oscillator has an
output pipe (the pipe case assumes the initial `period / 4` wait itself was
admissible, i.e. a nonnegative period). -/
theorem C9_negative_wait (period g : ℚ) (state : Bool) (gs : List ℚ)
    (hp : 0 ≤ period) (h : period / 2 + g < 0) :
    RO.run period true state (g :: gs) = Except.error SimError.InvalidDelay ∧
    RO.run period false state (g :: gs) = Except.error SimError.InvalidDelay := by
  have h4 : ¬ (period / 4 < 0) :=
    not_lt.mpr (div_nonneg hp (by norm_num))
  constructor <;> simp [RO.run, RO.runEvents, timeout, h4, h]

/-- Witness for C9: with period 4 and jitter draw −3 the first half-period
wait is −1 and the run aborts with `InvalidDelay`. -/
theorem C9_negative_wait_witness :
    (0 : ℚ) ≤ 4 ∧ (4 : ℚ) / 2 + (-3) < 0 ∧
    RO.run 4 true true [-3] = Except.error SimError.InvalidDelay :=
  ⟨by norm_num, by norm_num,
   (C9_negative_wait 4 (-3) true [] (by norm_num) (by norm_num)).1⟩

/-- C10: an oscillator constructed with an output pipe waits an extra
`period / 4` before entering its toggle loop, so its first state flip occurs
at `period / 4 + (period / 2 + g)` where `g` is the first jitter draw,
whereas an oscillator with no output pipe flips first at `period / 2 + g`;
the phase offset between the two is exactly `period / 4`. -/
theorem C10_initial_phase_offset (period g : ℚ) (state : Bool)
    (hp : 0 ≤ period) (hw : 0 ≤ period / 2 + g) :
    RO.run period true state [g] =
      Except.ok [(period / 4 + (period / 2 + g), !state)] ∧
    RO.run period false state [g] =
      Except.ok [(period / 2 + g, !state)] ∧
    (period / 4 + (period / 2 + g)) - (period / 2 + g) = period / 4 := by
  have h4 : ¬ (period / 4 < 0) :=
    not_lt.mpr (div_nonneg hp (by norm_num))
  have hw' : ¬ (period / 2 + g < 0) := not_lt.mpr hw
  refine ⟨?_, ?_, by ring⟩ <;> simp [RO.run, RO.runEvents, timeout, h4, hw']

/-- Witness for C10 at period 4 with a zero jitter draw: first flip at time
3 with a pipe, at time 2 without. -/
theorem C10_initial_phase_offset_witness :
    (0 : ℚ) ≤ 4 ∧ (0 : ℚ) ≤ 4 / 2 + 0 ∧
    RO.run 4 true true [0] = Except.ok [(4 / 4 + (4 / 2 + 0), !true)] ∧
    RO.run 4 false true [0] = Except.ok [(4 / 2 + 0, !true)] :=
  ⟨by norm_num, by norm_num,
   (C10_initial_phase_offset 4 0 true (by norm_num) (by norm_num)).1,
   (C10_initial_phase_offset 4 0 true (by norm_num) (by norm_num)).2.1⟩
